import Mathlib

set_option maxRecDepth 4000

/-!
Shallow embedding of the fact-checker service in `main.py`: the entity
extractor, the static knowledge base, the three external lookup components
(news search, generative model, knowledge graph) and the orchestrating
`analyze_claim_with_live_data` / `verify_claim` functions.  External HTTP
behaviour is passed in as explicit oracle parameters; Python exceptions that
escape a component are modelled with `Except`.
-/

namespace FactChecker

/-! ## Python string primitives

Models of the Python `str` operations the source uses: `lower`, `strip`,
`replace`, `split`, `startswith` and the `in` substring test.  Everything is
defined by structural recursion over `List Char` so that concrete inputs
evaluate by kernel reduction. -/

/-- Model of `str.lower` on one character (ASCII range, as used here). -/
def lowerChar (c : Char) : Char :=
  if 65 ≤ c.toNat ∧ c.toNat ≤ 90 then Char.ofNat (c.toNat + 32) else c

/-- Model of `str.lower`. -/
def pyLower (s : String) : String :=
  ⟨s.data.map lowerChar⟩

/-- Substring containment on character lists (Python `needle in hay`). -/
def listContainsSub (needle : List Char) : List Char → Bool
  | [] => needle.isEmpty
  | c :: cs => needle.isPrefixOf (c :: cs) || listContainsSub needle cs

/-- Model of the Python substring test `needle in hay`. -/
def containsSub (needle hay : String) : Bool :=
  listContainsSub needle.data hay.data

/-- Drop leading whitespace from a character list. -/
def dropLeadingWs : List Char → List Char
  | [] => []
  | c :: cs => if c.isWhitespace then dropLeadingWs cs else c :: cs

/-- Model of `str.strip`: drop leading and trailing whitespace. -/
def pyStrip (s : String) : String :=
  ⟨dropLeadingWs ((dropLeadingWs s.data.reverse).reverse)⟩

/-- Worker for `pyReplace`; the `Nat` fuel is the length of the subject
string, which bounds the number of recursion steps. -/
def replaceAux (pat rep : List Char) : Nat → List Char → List Char
  | 0, l => l
  | _ + 1, [] => []
  | fuel + 1, c :: cs =>
    if pat.isPrefixOf (c :: cs) then
      rep ++ replaceAux pat rep fuel ((c :: cs).drop pat.length)
    else
      c :: replaceAux pat rep fuel cs

/-- Model of `str.replace` (all non-overlapping occurrences, left to right). -/
def pyReplace (s pat rep : String) : String :=
  ⟨replaceAux pat.data rep.data s.data.length s.data⟩

/-- Text strictly before the first occurrence of `sep` (the whole list when
`sep` does not occur): Python `s.split(sep)[0]`. -/
def splitFirst (sep : List Char) : List Char → List Char
  | [] => []
  | c :: cs => if sep.isPrefixOf (c :: cs) then [] else c :: splitFirst sep cs

/-- Model of `s.split(sep)[0]`. -/
def pySplitFirst (s sep : String) : String :=
  ⟨splitFirst sep.data s.data⟩

/-- Worker for `pySplitWs`; `acc` holds the current word reversed. -/
def wsSplit (acc : List Char) : List Char → List String
  | [] => if acc.isEmpty then [] else [⟨acc.reverse⟩]
  | c :: cs =>
    if c.isWhitespace then
      (if acc.isEmpty then wsSplit [] cs else ⟨acc.reverse⟩ :: wsSplit [] cs)
    else
      wsSplit (c :: acc) cs

/-- Model of no-argument `str.split`: split on whitespace runs, no empties. -/
def pySplitWs (s : String) : List String :=
  wsSplit [] s.data

/-- Model of `sep.join(parts)`. -/
def joinWith (sep : String) : List String → String
  | [] => ""
  | [x] => x
  | x :: y :: xs => x ++ sep ++ joinWith sep (y :: xs)

/-- Model of `s.startswith(pre)`. -/
def pyStartsWith (s pre : String) : Bool :=
  pre.data.isPrefixOf s.data

/-- Model of the slice `s[:n]`. -/
def strTake (s : String) (n : Nat) : String :=
  ⟨s.data.take n⟩

/-- The ASCII apostrophe character (code 39). -/
def apos : Char := Char.ofNat 39

/-- A one-character string holding the apostrophe. -/
def sq : String := String.singleton apos

/-! ## Regular-expression model

Every pattern in `extract_main_entity` has the shape
`lit1 ++ "(.*)" ++ lit2` with literal pieces `lit1`, `lit2`.  For such a
pattern, `re.search` finds the leftmost start position at which the whole
pattern can match and captures greedily: the capture extends to the last
position at which `lit2` still matches, with the dot not crossing a newline.
`reSearchCapture` returns `group(1)` of that match, or `none`. -/

/-- Largest `j ≤ allowed` such that `lit2` matches in `rest` at offset `j`
(the greedy backtracking of `(.*)`). -/
def greedyStop (lit2 rest : List Char) (allowed : Nat) : Option Nat :=
  (List.range (allowed + 1)).reverse.find? (fun j => lit2.isPrefixOf (rest.drop j))

/-- Try to match `lit1(.*)lit2` at start offset `i` of `s`; on success return
the text captured by `(.*)`. -/
def matchAt (lit1 lit2 s : List Char) (i : Nat) : Option (List Char) :=
  if lit1.isPrefixOf (s.drop i) then
    match greedyStop lit2 ((s.drop i).drop lit1.length)
        (((s.drop i).drop lit1.length).takeWhile (fun c => c != Char.ofNat 10)).length with
    | some j => some (((s.drop i).drop lit1.length).take j)
    | none => none
  else
    none

/-- Model of `re.search(lit1 + "(.*)" + lit2, s).group(1)` (with `None` for
no match): scan start offsets left to right, capture greedily. -/
def reSearchCapture (lit1 lit2 s : String) : Option String :=
  match (List.range (s.data.length + 1)).findSome? (fun i => matchAt lit1.data lit2.data s.data i) with
  | some g => some ⟨g⟩
  | none => none

/-! ## Entity extraction (`extract_main_entity` in `main.py`) -/

/-- The ordered pattern list of `extract_main_entity`, each split into its
literal pieces around `(.*)`. -/
def patterns : List (String × String) :=
  [(("what is "), ("?")), (("who is "), ("?")), (("where is "), ("?")),
   (("what") ++ sq ++ ("s "), ("?")), (("who") ++ sq ++ ("s "), ("?")),
   (("where") ++ sq ++ ("s "), ("?")),
   (("is "), (" in")), (("are "), (" in"))]

/-- Model of `extract_main_entity`: lowercase the claim, try the patterns in
order, else split on `" is "` / `" are "`, else return the stripped claim. -/
def extract_main_entity (claim0 : String) : String :=
  let claim := pyLower claim0
  match patterns.findSome? (fun p => reSearchCapture p.1 p.2 claim) with
  | some g => pyReplace (pyStrip g) (" the ") ("")
  | none =>
    if containsSub (" is ") claim then
      pyReplace (pyStrip (pySplitFirst claim (" is "))) (" the ") ("")
    else if containsSub (" are ") claim then
      pyReplace (pyStrip (pySplitFirst claim (" are "))) (" the ") ("")
    else
      pyStrip claim

/-! ## Data model -/

/-- One `{title, url}` entry of a verdict's `sources` list. -/
structure SourceRef where
  title : String
  url : String
deriving DecidableEq, Repr

/-- The response shape every stage of the analyzer produces. -/
structure Verdict where
  verdict : String
  explanation : String
  sources : List SourceRef
  confidence : String
deriving DecidableEq, Repr

/-- One record of the static internal knowledge base (`demo_facts`). -/
structure KnowledgeFact where
  keys : List String
  verdict : String
  explanation : String
  sources : List SourceRef
deriving DecidableEq, Repr

/-- The single hand-authored record of `demo_facts` in `main.py`. -/
def demoFact0 : KnowledgeFact :=
  ⟨[("nepal"), ("parliament"), ("singha durbar"), ("burnt"), ("fire")],
   ("FALSE"),
   ("This is a common piece of misinformation. Photos of Singha Durbar burning are real but are from a major fire in 1973. While the parliament is housed there, it did not burn down in recent protests. This is a case of real images being used in a false context."),
   [⟨("The 1973 Singha Durbar Fire - The Record"), ("https://www.recordnepal.com/the-1973-singha-durbar-fire")⟩]⟩

/-- The static knowledge base, in list order. -/
def demo_facts : List KnowledgeFact := [demoFact0]

/-- The fixed news-trigger phrase list of step 2 of the analyzer. -/
def news_keywords : List String :=
  [("today"), ("yesterday"), ("this week"), ("market"), ("election"),
   ("downgrade"), ("days ago"), ("last month"), ("breaking news")]

/-- The `source` object of a news article (`article['source']`). -/
structure NewsSource where
  name : String
deriving DecidableEq, Repr

/-- A news article as returned by the news API; `source` is `none` when the
article object carries no usable `source` field (a malformed payload). -/
structure Article where
  source : Option NewsSource
  url : String
deriving DecidableEq, Repr

/-- A Python exception escaping a dictionary access (`KeyError` and kin). -/
inductive PyErr where
  | keyError
deriving DecidableEq, Repr

/-- A `requests` failure: connection error or non-2xx raised by
`raise_for_status` (both land in the same `except` clause). -/
inductive ReqError where
  | network
  | badStatus
deriving DecidableEq, Repr

/-- Decoded JSON body of a news API response; `articles` is `none` when the
key is absent. -/
structure NewsPayload where
  articles : Option (List Article)
deriving DecidableEq, Repr

/-- The `detailedDescription` object of a knowledge-graph result. -/
structure KGDetail where
  articleBody : Option String
  url : Option String
deriving DecidableEq, Repr

/-- The `result` object of a knowledge-graph item. -/
structure KGResult where
  name : Option String
  detailedDescription : Option KGDetail
deriving DecidableEq, Repr

/-- One element of `itemListElement`; `result` is `none` when the item has
no `result` key (a malformed payload). -/
structure KGItem where
  result : Option KGResult
deriving DecidableEq, Repr

/-- Decoded JSON body of a knowledge-graph response. -/
structure KGPayload where
  itemListElement : Option (List KGItem)
deriving DecidableEq, Repr

/-- Tags for the external stages the analyzer can invoke, recorded in call
order so "which stages ran" is visible in theorems. -/
inductive Stage where
  | news
  | gemini
  | kg
deriving DecidableEq, Repr

/-! ## External components

Each `query_*` function takes the behaviour of the outside world (credential
presence, HTTP outcome) as explicit parameters and mirrors the corresponding
Python function's control flow, including exactly which exceptions its
`try`/`except` catches. -/

/-- Model of `query_news_api`: missing/placeholder key or any caught request
failure or an absent/empty `articles` list yields `none`. -/
def query_news_api (key : Option String) (http : Except ReqError NewsPayload) :
    Option (List Article) :=
  match key with
  | none => none
  | some k =>
    if k = "" ∨ k = ("your_newsapi_org_key") then none
    else
      match http with
      | Except.error _ => none
      | Except.ok data =>
        match data.articles with
        | some l => if l.isEmpty then none else some l
        | none => none

/-- Model of `query_gemini_api`: the whole body sits in a bare
`except Exception`, so every failure becomes `none`. -/
def query_gemini_api (http : Except ReqError String) : Option String :=
  match http with
  | Except.ok text => some text
  | Except.error _ => none

/-- Model of `query_knowledge_graph`: missing/placeholder key or a caught
request failure or an empty item list yields `Except.ok none`; an item
without a `result` key raises `KeyError` out of the function. -/
def query_knowledge_graph (key : Option String) (http : Except ReqError KGPayload) :
    Except PyErr (Option KGResult) :=
  match key with
  | none => Except.ok none
  | some k =>
    if k = "" ∨ k = ("your_actual_api_key_here") then Except.ok none
    else
      match http with
      | Except.error _ => Except.ok none
      | Except.ok data =>
        match data.itemListElement with
        | some (item :: _) =>
          (match item.result with
           | some r => Except.ok (some r)
           | none => Except.error PyErr.keyError)
        | some [] => Except.ok none
        | none => Except.ok none

/-! ## Orchestrator -/

/-- The `{title, url}` pair built from one article when its source is
present (used to state what the comprehension at line 155 produces). -/
def srcOf (a : Article) : SourceRef :=
  ⟨(a.source.getD ⟨("")⟩).name, a.url⟩

/-- Model of the list comprehension
`[{"title": article['source']['name'], "url": article['url']} ...]`:
built left to right, raising `KeyError` at the first article without a
source. -/
def mapSources : List Article → Except PyErr (List SourceRef)
  | [] => Except.ok []
  | a :: rest =>
    match a.source with
    | none => Except.error PyErr.keyError
    | some src =>
      match mapSources rest with
      | Except.error e => Except.error e
      | Except.ok tl => Except.ok (⟨src.name, a.url⟩ :: tl)

/-- The explanation text of the news-stage verdict. -/
def news_explanation (entity_for_news : List String) : String :=
  ("This appears to be a recent news event. Here are the latest top articles related to ")
    ++ sq ++ joinWith (" ") entity_for_news ++ sq
    ++ (". We recommend reading them to form your own conclusion.")

/-- Python f-string rendering of an optional string (`None` prints as
the text `None`). -/
def optStr : Option String → String
  | some s => s
  | none => ("None")

/-- Model of `kg_result.get('detailedDescription', {}).get('articleBody', '')`. -/
def kgBody (r : KGResult) : String :=
  match r.detailedDescription with
  | some d => d.articleBody.getD ("")
  | none => ("")

/-- Model of `kg_result.get('detailedDescription', {}).get('url', '#')`. -/
def kgUrl (r : KGResult) : String :=
  match r.detailedDescription with
  | some d => d.url.getD ("#")
  | none => ("#")

/-- The explanation text of the knowledge-graph verdict. -/
def kg_explanation (nm desc : String) : String :=
  ("We found information on ") ++ sq ++ nm ++ sq
    ++ (", but could not definitively verify this specific claim. Here is a summary from Google: ")
    ++ desc ++ ("...")

/-- The external world as the analyzer sees it: the news lookup as a
function of the keyword list, the raw generative-model text (already
`none` on any failure, matching `query_gemini_api`), the knowledge-graph
lookup as a function of the entity (which may raise), and the two
`random.randint` draws used for cosmetic confidence strings. -/
structure ApiEnv where
  newsO : List String → Option (List Article)
  gemO : Option String
  kgO : String → Except PyErr (Option KGResult)
  r1 : Nat
  r2 : Nat

/-- Steps 4–5 of `analyze_claim_with_live_data`: the knowledge-graph
fallback and the terminal ERROR verdict, reached when the generative model
yields no truthy text.  The guard `if kg_result:` at line 183 is Python
truthiness: `None` and the empty dict are both falsy, so a result with both
modelled fields absent (the image of the empty dict) falls through to the
ERROR verdict. -/
def kg_step (env : ApiEnv) (claim : String) : Except PyErr Verdict × List Stage :=
  match env.kgO (extract_main_entity claim) with
  | Except.error e => (Except.error e, [Stage.gemini, Stage.kg])
  | Except.ok (some kg_result) =>
    if kg_result = (⟨none, none⟩ : KGResult) then
      (Except.ok
        ⟨("ERROR"), ("Could not verify the claim through any available API."), [], ("0%")⟩,
       [Stage.gemini, Stage.kg])
    else
      (Except.ok
        ⟨("UNVERIFIED"),
         kg_explanation (optStr kg_result.name) (strTake (pyLower (kgBody kg_result)) 200),
         [⟨("Knowledge Graph Source"), kgUrl kg_result⟩],
         Nat.repr env.r2 ++ ("%")⟩,
       [Stage.gemini, Stage.kg])
  | Except.ok none =>
    (Except.ok
      ⟨("ERROR"), ("Could not verify the claim through any available API."), [], ("0%")⟩,
     [Stage.gemini, Stage.kg])

/-- Steps 3–5 of `analyze_claim_with_live_data`: the generative-model check,
then the knowledge-graph fallback and the terminal ERROR verdict, returned
with the list of external stages invoked.  The guard `if gemini_response:`
at line 165 is Python truthiness: `None` and the empty string are both
falsy, so an empty model response falls through to the knowledge graph. -/
def gemini_kg_steps (env : ApiEnv) (claim : String) : Except PyErr Verdict × List Stage :=
  match env.gemO with
  | some gemini_response =>
    if gemini_response = "" then kg_step env claim
    else
      (Except.ok
        ⟨(if pyStartsWith (pyLower gemini_response) ("true") then ("TRUE")
          else if pyStartsWith (pyLower gemini_response) ("false") then ("FALSE")
          else ("UNVERIFIED")),
         gemini_response,
         [⟨("Source: Google Gemini"), ("https://ai.google/")⟩],
         Nat.repr env.r1 ++ ("%")⟩,
       [Stage.gemini])
  | none => kg_step env claim

/-- Prepend the news stage to the invocation trace of a later result. -/
def withNews (r : Except PyErr Verdict × List Stage) : Except PyErr Verdict × List Stage :=
  (r.1, Stage.news :: r.2)

/-- The knowledge-base match test of step 1: every key of the record occurs
as a substring of the lowercased claim. -/
def kbMatches (lower_case_claim : String) (fact : KnowledgeFact) : Bool :=
  fact.keys.all (fun key => containsSub key lower_case_claim)

/-- The news-trigger test of step 2: some trigger phrase occurs as a
substring of the lowercased claim. -/
def hasNewsTrigger (lower_case_claim : String) : Bool :=
  news_keywords.any (fun keyword => containsSub keyword lower_case_claim)

/-- Model of `analyze_claim_with_live_data`: knowledge base first, then the
news path when a trigger phrase occurs, then the generative model, then the
knowledge graph, then the fixed ERROR verdict.  Returns the result (or the
uncaught exception) together with the external stages invoked, in order. -/
def analyze_claim_with_live_data (env : ApiEnv) (claim : String) :
    Except PyErr Verdict × List Stage :=
  match demo_facts.find? (kbMatches (pyLower claim)) with
  | some fact => (Except.ok ⟨fact.verdict, fact.explanation, fact.sources, ("99%")⟩, [])
  | none =>
    if hasNewsTrigger (pyLower claim) then
      match env.newsO (pySplitWs (extract_main_entity claim)) with
      | some articles =>
        if articles.isEmpty then withNews (gemini_kg_steps env claim)
        else
          match mapSources articles with
          | Except.error e => (Except.error e, [Stage.news])
          | Except.ok sources =>
            (Except.ok ⟨("UNVERIFIED"),
               news_explanation (pySplitWs (extract_main_entity claim)), sources, ("70%")⟩,
             [Stage.news])
      | none => withNews (gemini_kg_steps env claim)
    else
      gemini_kg_steps env claim

/-- Whether step 2 terminates the pipeline: a trigger phrase matched and the
news lookup returned a non-empty article list (Python truthiness of
`articles`). -/
def newsHit (env : ApiEnv) (claim : String) : Bool :=
  if hasNewsTrigger (pyLower claim) then
    match env.newsO (pySplitWs (extract_main_entity claim)) with
    | some articles => !articles.isEmpty
    | none => false
  else false

/-! ## HTTP endpoint (`verify_claim` in `main.py`) -/

/-- The decoded JSON request body; `claim` is `none` when the field is
absent (Python `data.get('claim', '')` then defaults it to the empty
string). -/
structure ReqBody where
  claim : Option String
deriving DecidableEq, Repr

/-- The JSON body of an endpoint response. -/
inductive RespBody where
  | err (msg : String)
  | verdictBody (v : Verdict)
deriving DecidableEq, Repr

/-- Model of the `/verify` handler: empty/absent claim means HTTP 400 with
an error body and no pipeline run; otherwise the analyzer's verdict is
returned with HTTP 200 (or its uncaught exception propagates). -/
def verify_claim (env : ApiEnv) (data : ReqBody) :
    Except PyErr (Nat × RespBody) × List Stage :=
  if data.claim.getD ("") = "" then
    (Except.ok (400, RespBody.err ("No claim provided")), [])
  else
    match analyze_claim_with_live_data env (data.claim.getD ("")) with
    | (Except.error e, tr) => (Except.error e, tr)
    | (Except.ok v, tr) => (Except.ok (200, RespBody.verdictBody v), tr)

/-- The first whitespace-delimited word of a string (empty when the string
starts with whitespace or is empty). -/
def firstWord (s : String) : String :=
  ⟨s.data.takeWhile (fun c => !c.isWhitespace)⟩

/-- The first-word classification rule for the model response, as the spec
phrases it: the verdict is decided by whether the first word of the
lowercased text has `true` (resp. `false`) as an exact prefix. -/
def classify_first_word (t : String) : String :=
  if pyStartsWith (firstWord (pyLower t)) ("true") then ("TRUE")
  else if pyStartsWith (firstWord (pyLower t)) ("false") then ("FALSE")
  else ("UNVERIFIED")

/-- All-absent external world: no news, no model text, empty knowledge
graph (used to instantiate universally quantified theorems). -/
def envNone : ApiEnv := ⟨fun _ => none, none, fun _ => Except.ok none, 90, 55⟩

/-! ## Helper lemmas -/

/-- A needle all of whose characters satisfy `p` is a prefix of
`s.takeWhile p` exactly when it is a prefix of `s`. -/
theorem isPrefixOf_takeWhile (p : Char → Bool) (needle : List Char) :
    ∀ s : List Char, (∀ c ∈ needle, p c = true) →
      needle.isPrefixOf (s.takeWhile p) = needle.isPrefixOf s := by
  induction needle with
  | nil => intro s _; simp [List.isPrefixOf]
  | cons n ns ih =>
    intro s hall
    cases s with
    | nil => simp [List.takeWhile]
    | cons c cs =>
      cases hc : p c with
      | true =>
        simp only [List.takeWhile, hc, List.isPrefixOf]
        rw [ih cs (fun d hd => hall d (List.mem_cons_of_mem _ hd))]
      | false =>
        have hnc : (n == c) = false := by
          cases h : n == c with
          | false => rfl
          | true =>
            have hpn := hall n (List.mem_cons_self n ns)
            rw [eq_of_beq h, hc] at hpn
            exact absurd hpn (by simp)
        simp [List.takeWhile, hc, List.isPrefixOf, hnc]

/-- The spec's first-word classification coincides with the code's
whole-string prefix test, because `true` and `false` contain no
whitespace. -/
theorem classify_first_word_eq (t : String) :
    classify_first_word t =
      (if pyStartsWith (pyLower t) ("true") then ("TRUE")
       else if pyStartsWith (pyLower t) ("false") then ("FALSE")
       else ("UNVERIFIED")) := by
  unfold classify_first_word firstWord pyStartsWith
  rw [show (String.mk ((pyLower t).data.takeWhile (fun c => !c.isWhitespace))).data
        = (pyLower t).data.takeWhile (fun c => !c.isWhitespace) from rfl]
  rw [isPrefixOf_takeWhile _ _ _ (by decide), isPrefixOf_takeWhile _ _ _ (by decide)]

/-- When every article carries a source object, the comprehension at line
155 succeeds and produces one `{title, url}` pair per article. -/
theorem mapSources_eq_map :
    ∀ l : List Article, l.all (fun a => a.source.isSome) = true →
      mapSources l = Except.ok (l.map srcOf)
  | [], _ => rfl
  | a :: rest, h => by
    simp only [List.all_cons, Bool.and_eq_true] at h
    obtain ⟨ha, hrest⟩ := h
    cases hs : a.source with
    | none => rw [hs] at ha; simp [Option.isSome] at ha
    | some src =>
      simp only [mapSources, hs, mapSources_eq_map rest hrest, List.map, srcOf,
        Option.getD_some]

/-- The knowledge base holds a single record, so any successful lookup
yields that record. -/
theorem demo_find_eq (p : KnowledgeFact → Bool) (f : KnowledgeFact)
    (h : demo_facts.find? p = some f) : f = demoFact0 := by
  unfold demo_facts at h
  cases hp : p demoFact0 with
  | false => simp [List.find?, hp] at h
  | true => simp [List.find?, hp] at h; exact h.symm

/-- Steps 4–5 record the generative-model stage as invoked (the model was
called before control fell through to them). -/
theorem gemini_mem_kg_step (env : ApiEnv) (claim : String) :
    Stage.gemini ∈ (kg_step env claim).2 := by
  unfold kg_step
  cases env.kgO (extract_main_entity claim) with
  | error e => simp
  | ok r =>
    cases r with
    | none => simp
    | some kgr =>
      by_cases hr : kgr = (⟨none, none⟩ : KGResult)
      · simp only [if_pos hr]; simp
      · simp only [if_neg hr]; simp

/-- Steps 3–5 always invoke the generative-model stage. -/
theorem gemini_mem_steps (env : ApiEnv) (claim : String) :
    Stage.gemini ∈ (gemini_kg_steps env claim).2 := by
  unfold gemini_kg_steps
  cases env.gemO with
  | some t =>
    by_cases ht : t = ""
    · simp only [if_pos ht]; exact gemini_mem_kg_step env claim
    · simp only [if_neg ht]; simp
  | none => exact gemini_mem_kg_step env claim

/-- When step 2 does not terminate the pipeline, the analyzer's result is
the result of steps 3–5. -/
theorem analyze_fst_of_no_newsHit (env : ApiEnv) (claim : String)
    (hkb : demo_facts.find? (kbMatches (pyLower claim)) = none)
    (hnews : newsHit env claim = false) :
    (analyze_claim_with_live_data env claim).1 = (gemini_kg_steps env claim).1 := by
  unfold analyze_claim_with_live_data
  unfold newsHit at hnews
  cases ht : hasNewsTrigger (pyLower claim) with
  | false => simp only [hkb, ht, Bool.false_eq_true, if_false]
  | true =>
    rw [if_pos ht] at hnews
    simp only [hkb, ht, eq_self_iff_true, if_true]
    cases ha : env.newsO (pySplitWs (extract_main_entity claim)) with
    | none => simp only [ha]; rfl
    | some articles =>
      rw [ha] at hnews
      have he : articles.isEmpty = true := by simpa using hnews
      simp only [ha, he, eq_self_iff_true, if_true]
      rfl

/-- Steps 4–5 produce a verdict from the four-value enumeration whenever
the knowledge-graph lookup does not raise. -/
theorem kg_step_ok_of_wf (env : ApiEnv) (claim : String)
    (hk : ∀ en e, env.kgO en ≠ Except.error e) :
    ∃ v, (kg_step env claim).1 = Except.ok v ∧
      (v.verdict = ("TRUE") ∨ v.verdict = ("FALSE") ∨ v.verdict = ("UNVERIFIED") ∨
        v.verdict = ("ERROR")) := by
  unfold kg_step
  cases hkg : env.kgO (extract_main_entity claim) with
  | error e => exact absurd hkg (hk _ e)
  | ok r =>
    cases r with
    | none => exact ⟨_, rfl, by right; right; right; rfl⟩
    | some kg_result =>
      by_cases hr : kg_result = (⟨none, none⟩ : KGResult)
      · simp only [if_pos hr]
        exact ⟨_, rfl, by right; right; right; rfl⟩
      · simp only [if_neg hr]
        exact ⟨_, rfl, by right; right; left; rfl⟩

/-- Steps 3–5 produce a verdict from the four-value enumeration whenever the
knowledge-graph lookup does not raise. -/
theorem gemini_kg_ok_of_wf (env : ApiEnv) (claim : String)
    (hk : ∀ en e, env.kgO en ≠ Except.error e) :
    ∃ v, (gemini_kg_steps env claim).1 = Except.ok v ∧
      (v.verdict = ("TRUE") ∨ v.verdict = ("FALSE") ∨ v.verdict = ("UNVERIFIED") ∨
        v.verdict = ("ERROR")) := by
  unfold gemini_kg_steps
  cases hg : env.gemO with
  | some t =>
    by_cases ht : t = ""
    · simp only [if_pos ht]
      exact kg_step_ok_of_wf env claim hk
    · simp only [if_neg ht]
      refine ⟨_, rfl, ?_⟩
      dsimp only
      split
      · left; rfl
      · split
        · right; left; rfl
        · right; right; left; rfl
  | none => exact kg_step_ok_of_wf env claim hk

/-- The analyzer returns a verdict from the four-value enumeration whenever
every news article carries a source and the knowledge-graph lookup does not
raise. -/
theorem analyze_ok_of_wf (env : ApiEnv) (claim : String)
    (hn : ∀ kw l, env.newsO kw = some l → l.all (fun a => a.source.isSome) = true)
    (hk : ∀ en e, env.kgO en ≠ Except.error e) :
    ∃ v, (analyze_claim_with_live_data env claim).1 = Except.ok v ∧
      (v.verdict = ("TRUE") ∨ v.verdict = ("FALSE") ∨ v.verdict = ("UNVERIFIED") ∨
        v.verdict = ("ERROR")) := by
  unfold analyze_claim_with_live_data
  cases hf : demo_facts.find? (kbMatches (pyLower claim)) with
  | some fact =>
    have hd := demo_find_eq _ _ hf
    subst hd
    simp only [hf]
    exact ⟨_, rfl, by right; left; rfl⟩
  | none =>
    cases ht : hasNewsTrigger (pyLower claim) with
    | false =>
      simp only [hf, ht, Bool.false_eq_true, if_false]
      exact gemini_kg_ok_of_wf env claim hk
    | true =>
      simp only [hf, ht, eq_self_iff_true, if_true]
      cases ha : env.newsO (pySplitWs (extract_main_entity claim)) with
      | none =>
        simp only [ha]
        exact gemini_kg_ok_of_wf env claim hk
      | some articles =>
        simp only [ha]
        cases he : articles.isEmpty with
        | true =>
          simp only [he, eq_self_iff_true, if_true]
          exact gemini_kg_ok_of_wf env claim hk
        | false =>
          simp only [he, Bool.false_eq_true, if_false]
          rw [mapSources_eq_map articles (hn _ _ ha)]
          exact ⟨⟨("UNVERIFIED"), news_explanation (pySplitWs (extract_main_entity claim)),
            List.map srcOf articles, ("70%")⟩, rfl, by right; right; left; rfl⟩

/-! ## Claim theorems -/

/-- C1: for every claim on which the knowledge-base lookup finds a record
(every key of the record a substring of the lowercased claim, first match
in list order), the analyzer returns exactly that record's verdict,
explanation and sources with confidence 99%, for every behaviour of the
news, generative-model and knowledge-graph stages, and its stage trace is
empty: no external stage is invoked. -/
theorem kb_match_preempts_pipeline (env : ApiEnv) (claim : String) (fact : KnowledgeFact)
    (h : demo_facts.find? (kbMatches (pyLower claim)) = some fact) :
    analyze_claim_with_live_data env claim =
      (Except.ok ⟨fact.verdict, fact.explanation, fact.sources, ("99%")⟩, []) := by
  unfold analyze_claim_with_live_data
  simp only [h]

/-- Witness for C1 at a concrete claim containing all five keys of the
single knowledge-base record, with every external stage absent. -/
theorem kb_match_preempts_pipeline_inst :
    analyze_claim_with_live_data envNone
      ("The Nepal parliament at Singha Durbar burnt in a fire") =
      (Except.ok ⟨demoFact0.verdict, demoFact0.explanation, demoFact0.sources, ("99%")⟩, []) :=
  kb_match_preempts_pipeline envNone
    ("The Nepal parliament at Singha Durbar burnt in a fire") demoFact0 (by rfl)

/-- C2: when the knowledge base does not match, step 2 does not terminate
the pipeline, and the generative model returns a text — a truthy one, since
the guard `if gemini_response:` treats the empty string like an absent
response — the analyzer's verdict is decided by the first word of the
lowercased response (exact prefix `true` gives TRUE, exact prefix `false`
gives FALSE, anything else UNVERIFIED) and the full response text is the
explanation, verbatim. -/
theorem gemini_first_word_classification (env : ApiEnv) (claim t : String)
    (hg : env.gemO = some t)
    (ht : t ≠ "")
    (hkb : demo_facts.find? (kbMatches (pyLower claim)) = none)
    (hnews : newsHit env claim = false) :
    (analyze_claim_with_live_data env claim).1 =
      Except.ok ⟨classify_first_word t, t,
        [⟨("Source: Google Gemini"), ("https://ai.google/")⟩],
        Nat.repr env.r1 ++ ("%")⟩ := by
  rw [analyze_fst_of_no_newsHit env claim hkb hnews]
  unfold gemini_kg_steps
  simp only [hg]
  rw [if_neg ht, classify_first_word_eq]

/-- Witness for C2: a response whose first word is `False.` classifies as
FALSE and is surfaced verbatim. -/
theorem gemini_first_word_classification_inst :
    (analyze_claim_with_live_data
      ⟨fun _ => none, some ("False. The moon is made of rock."), fun _ => Except.ok none, 90, 55⟩
      ("the moon is made of cheese")).1 =
      Except.ok ⟨("FALSE"), ("False. The moon is made of rock."),
        [⟨("Source: Google Gemini"), ("https://ai.google/")⟩], ("90%")⟩ :=
  gemini_first_word_classification
    ⟨fun _ => none, some ("False. The moon is made of rock."), fun _ => Except.ok none, 90, 55⟩
    ("the moon is made of cheese") ("False. The moon is made of rock.")
    rfl (by decide) (by rfl) (by rfl)

/-- C3 counterexample: the extractor applied to the question about the
Eiffel Tower does not return `eiffel tower`; it returns `the eiffel tower`,
because `.replace(" the ", "")` needs a space before `the` and the captured
group starts with `the`. -/
theorem entity_extractor_eiffel_cex :
    extract_main_entity ("What is the Eiffel Tower?") ≠ ("eiffel tower") ∧
    extract_main_entity ("What is the Eiffel Tower?") = ("the eiffel tower") :=
  ⟨by decide, by decide⟩

/-- C3 amended: the four extractor round-trips, with the first corrected to
the value the code actually produces (`the eiffel tower`); the remaining
three hold as claimed. -/
theorem entity_extractor_round_trip :
    extract_main_entity ("What is the Eiffel Tower?") = ("the eiffel tower") ∧
    extract_main_entity ("Paris is the capital of France") = ("paris") ∧
    extract_main_entity ("bananas are yellow") = ("bananas") ∧
    extract_main_entity ("hello world") = ("hello world") :=
  ⟨by decide, by decide, by decide, by decide⟩

/-- C4: when the knowledge base misses, the lowercased claim contains a
news-trigger phrase, and the news lookup on the entity-derived keywords
returns a non-empty article list (each article carrying a source object),
the analyzer returns verdict UNVERIFIED with confidence 70% and one
`{title, url}` source entry per returned article, so the source count
equals the article count. -/
theorem news_trigger_articles_unverified (env : ApiEnv) (claim : String)
    (articles : List Article)
    (hkb : demo_facts.find? (kbMatches (pyLower claim)) = none)
    (ht : hasNewsTrigger (pyLower claim) = true)
    (ha : env.newsO (pySplitWs (extract_main_entity claim)) = some articles)
    (hne : articles.isEmpty = false)
    (hws : articles.all (fun a => a.source.isSome) = true) :
    ∃ v, (analyze_claim_with_live_data env claim).1 = Except.ok v ∧
      v.verdict = ("UNVERIFIED") ∧ v.confidence = ("70%") ∧
      v.sources = articles.map srcOf ∧ v.sources.length = articles.length := by
  unfold analyze_claim_with_live_data
  simp only [hkb, ht, eq_self_iff_true, if_true, ha, hne, Bool.false_eq_true, if_false]
  rw [mapSources_eq_map articles hws]
  exact ⟨⟨("UNVERIFIED"), news_explanation (pySplitWs (extract_main_entity claim)),
    articles.map srcOf, ("70%")⟩, rfl, rfl, rfl, rfl, by simp⟩

/-- Concrete two-article news result used to instantiate C4. -/
def articlesA : List Article :=
  [⟨some ⟨("Reuters")⟩, ("https://example.com/1")⟩,
   ⟨some ⟨("AP News")⟩, ("https://example.com/2")⟩]

/-- Witness for C4 at a trigger-phrase claim and a two-article result. -/
theorem news_trigger_articles_unverified_inst :
    ∃ v, (analyze_claim_with_live_data
        ⟨fun _ => some articlesA, none, fun _ => Except.ok none, 90, 55⟩
        ("the market crashed today")).1 = Except.ok v ∧
      v.verdict = ("UNVERIFIED") ∧ v.confidence = ("70%") ∧
      v.sources = articlesA.map srcOf ∧ v.sources.length = articlesA.length :=
  news_trigger_articles_unverified
    ⟨fun _ => some articlesA, none, fun _ => Except.ok none, 90, 55⟩
    ("the market crashed today") articlesA (by rfl) (by rfl) (by rfl) (by rfl) (by rfl)

/-- C5: when the knowledge base misses, a news-trigger phrase is present,
but the news lookup returns the absence signal, the pipeline does not
terminate at the news stage: the analyzer's result is exactly the result of
steps 3 onward and the generative-model stage is invoked. -/
theorem news_miss_falls_through (env : ApiEnv) (claim : String)
    (hkb : demo_facts.find? (kbMatches (pyLower claim)) = none)
    (ht : hasNewsTrigger (pyLower claim) = true)
    (ha : env.newsO (pySplitWs (extract_main_entity claim)) = none) :
    analyze_claim_with_live_data env claim =
      ((gemini_kg_steps env claim).1, Stage.news :: (gemini_kg_steps env claim).2) ∧
    Stage.gemini ∈ (analyze_claim_with_live_data env claim).2 := by
  have h1 : analyze_claim_with_live_data env claim = withNews (gemini_kg_steps env claim) := by
    unfold analyze_claim_with_live_data
    simp only [hkb, ht, eq_self_iff_true, if_true, ha]
  refine ⟨by rw [h1]; rfl, ?_⟩
  rw [h1]
  unfold withNews
  exact List.mem_cons_of_mem _ (gemini_mem_steps env claim)

/-- Environment for the C5 witness: trigger matches, news lookup absent,
generative model available. -/
def envC5 : ApiEnv :=
  ⟨fun _ => none, some ("UNVERIFIED. No recent coverage found."), fun _ => Except.ok none, 90, 55⟩

/-- Witness for C5 at a trigger-phrase claim whose news lookup is absent. -/
theorem news_miss_falls_through_inst :
    analyze_claim_with_live_data envC5 ("the market crashed today") =
      ((gemini_kg_steps envC5 ("the market crashed today")).1,
        Stage.news :: (gemini_kg_steps envC5 ("the market crashed today")).2) ∧
    Stage.gemini ∈ (analyze_claim_with_live_data envC5 ("the market crashed today")).2 :=
  news_miss_falls_through envC5 ("the market crashed today") (by rfl) (by rfl) (by rfl)

/-- C6 counterexample: a news article object without a `source` field makes
the orchestrator's source-building comprehension raise an uncaught
`KeyError` (line 155 runs outside every `try`), so the analyzer does not
return a Verdict at this input. -/
theorem malformed_article_raises :
    (analyze_claim_with_live_data
      ⟨fun _ => some [⟨none, ("https://example.com/a")⟩], none, fun _ => Except.ok none, 90, 55⟩
      ("the markets slid three days ago")).1 = Except.error PyErr.keyError := by
  rfl

/-- C6 amended: network errors, non-2xx responses and missing credentials
are each caught inside the owning component and converted to the absence
signal none (the two `ReqError` constructors cover the transport failure
and the `raise_for_status` failure; the `none` key covers the missing
credential); and whenever every returned news article carries a source
object and the knowledge-graph lookup does not raise, the analyzer returns
a Verdict.  (Malformed payloads are excluded: an article without a source
raises an uncaught error, see the counterexample.) -/
theorem errors_absorbed_amended :
    (∀ http, query_news_api none http = none) ∧
    (∀ k e, query_news_api (some k) (Except.error e) = none) ∧
    (∀ e, query_gemini_api (Except.error e) = none) ∧
    (∀ http, query_knowledge_graph none http = Except.ok none) ∧
    (∀ k e, query_knowledge_graph (some k) (Except.error e) = Except.ok none) ∧
    (∀ (env : ApiEnv) (claim : String),
      (∀ kw l, env.newsO kw = some l → l.all (fun a => a.source.isSome) = true) →
      (∀ en e, env.kgO en ≠ Except.error e) →
      ∃ v, (analyze_claim_with_live_data env claim).1 = Except.ok v) := by
  refine ⟨fun _ => rfl, ?_, fun _ => rfl, fun _ => rfl, ?_, ?_⟩
  · intro k e
    unfold query_news_api
    split <;> try rfl
    split <;> rfl
  · intro k e
    unfold query_knowledge_graph
    split <;> try rfl
    split <;> rfl
  · intro env claim hn hk
    obtain ⟨v, hv, _⟩ := analyze_ok_of_wf env claim hn hk
    exact ⟨v, hv⟩

/-- Witness for C6 (amended part) with the all-absent environment. -/
theorem errors_absorbed_amended_inst :
    ∃ v, (analyze_claim_with_live_data envNone ("breaking news from the summit")).1 =
      Except.ok v :=
  errors_absorbed_amended.2.2.2.2.2 envNone ("breaking news from the summit")
    (fun _ _ h => nomatch h) (fun _ _ h => nomatch h)

/-- C7: when all four stages yield nothing — knowledge-base miss, no news
result, generative model absent, knowledge-graph lookup empty — the
analyzer returns exactly the fixed terminal ERROR verdict with the fixed
explanation, an empty source list and confidence 0%. -/
theorem all_stages_miss_error_verdict (env : ApiEnv) (claim : String)
    (hkb : demo_facts.find? (kbMatches (pyLower claim)) = none)
    (hnews : newsHit env claim = false)
    (hg : env.gemO = none)
    (hkg : env.kgO (extract_main_entity claim) = Except.ok none) :
    (analyze_claim_with_live_data env claim).1 =
      Except.ok ⟨("ERROR"), ("Could not verify the claim through any available API."),
        [], ("0%")⟩ := by
  rw [analyze_fst_of_no_newsHit env claim hkb hnews]
  unfold gemini_kg_steps
  simp only [hg]
  unfold kg_step
  rw [hkg]

/-- Witness for C7 with the all-absent environment. -/
theorem all_stages_miss_error_verdict_inst :
    (analyze_claim_with_live_data envNone ("hello world")).1 =
      Except.ok ⟨("ERROR"), ("Could not verify the claim through any available API."),
        [], ("0%")⟩ :=
  all_stages_miss_error_verdict envNone ("hello world") (by rfl) (by rfl) rfl rfl

/-- C8: a request whose `claim` field is absent or the empty string is
answered with HTTP 400 and the fixed error body while invoking no pipeline
stage (empty trace), for every behaviour of the external stages; and a
request with a non-empty claim for which the analyzer produces a Verdict is
answered with HTTP 200 carrying exactly that Verdict. -/
theorem endpoint_claim_validation (env : ApiEnv) :
    (∀ data : ReqBody, data.claim.getD ("") = "" →
      verify_claim env data = (Except.ok (400, RespBody.err ("No claim provided")), [])) ∧
    (∀ (c : String) (v : Verdict), c ≠ "" →
      (analyze_claim_with_live_data env c).1 = Except.ok v →
      (verify_claim env ⟨some c⟩).1 = Except.ok (200, RespBody.verdictBody v)) := by
  constructor
  · intro data h
    unfold verify_claim
    rw [if_pos h]
  · intro c v hc hv
    unfold verify_claim
    simp only [Option.getD_some]
    rw [if_neg hc]
    cases hA : analyze_claim_with_live_data env c with
    | mk fst tr =>
      rw [hA] at hv
      cases fst with
      | error e => simp at hv
      | ok w =>
        simp only [Except.ok.injEq] at hv
        subst hv
        simp [hA]

/-- Witness for C8: the empty claim is rejected with 400 and no stage runs;
`hello world` flows through the analyzer to an HTTP 200 verdict. -/
theorem endpoint_claim_validation_inst :
    verify_claim envNone ⟨some ("")⟩ =
      (Except.ok (400, RespBody.err ("No claim provided")), []) ∧
    (verify_claim envNone ⟨some ("hello world")⟩).1 =
      Except.ok (200, RespBody.verdictBody
        ⟨("ERROR"), ("Could not verify the claim through any available API."), [], ("0%")⟩) :=
  ⟨(endpoint_claim_validation envNone).1 ⟨some ("")⟩ (by rfl),
   (endpoint_claim_validation envNone).2 ("hello world")
     ⟨("ERROR"), ("Could not verify the claim through any available API."), [], ("0%")⟩
     (by decide) (by rfl)⟩

/-- C9 counterexample: with a news payload whose article lacks a source
object, the analyzer raises instead of returning a Verdict, so it does not
return exactly one Verdict for every input claim. -/
theorem analyzer_not_total_cex :
    (analyze_claim_with_live_data
      ⟨fun _ => some [⟨none, ("https://example.com/b")⟩], none, fun _ => Except.ok none, 88, 60⟩
      ("the election results yesterday")).1 = Except.error PyErr.keyError := by
  rfl

/-- C9 amended: whenever every returned news article carries a source
object and the knowledge-graph lookup does not raise, the analyzer returns
exactly one Verdict — one exists, it is unique, and its verdict field is
one of TRUE, FALSE, UNVERIFIED, ERROR. -/
theorem analyzer_unique_verdict_amended (env : ApiEnv) (claim : String)
    (hn : ∀ kw l, env.newsO kw = some l → l.all (fun a => a.source.isSome) = true)
    (hk : ∀ en e, env.kgO en ≠ Except.error e) :
    ∃ v, (analyze_claim_with_live_data env claim).1 = Except.ok v ∧
      (v.verdict = ("TRUE") ∨ v.verdict = ("FALSE") ∨ v.verdict = ("UNVERIFIED") ∨
        v.verdict = ("ERROR")) ∧
      ∀ w, (analyze_claim_with_live_data env claim).1 = Except.ok w → w = v := by
  obtain ⟨v, hv, henum⟩ := analyze_ok_of_wf env claim hn hk
  refine ⟨v, hv, henum, fun w hw => ?_⟩
  rw [hv] at hw
  injection hw with h
  exact h.symm

/-- Witness for C9 (amended) with the all-absent environment. -/
theorem analyzer_unique_verdict_amended_inst :
    ∃ v, (analyze_claim_with_live_data envNone ("bananas are yellow")).1 = Except.ok v ∧
      (v.verdict = ("TRUE") ∨ v.verdict = ("FALSE") ∨ v.verdict = ("UNVERIFIED") ∨
        v.verdict = ("ERROR")) ∧
      ∀ w, (analyze_claim_with_live_data envNone ("bananas are yellow")).1 = Except.ok w →
        w = v :=
  analyzer_unique_verdict_amended envNone ("bananas are yellow")
    (fun _ _ h => nomatch h) (fun _ _ h => nomatch h)

/-- C10: a request whose claim is any non-empty string — in particular a
whitespace-only one — passes the emptiness check, and the endpoint's
response and stage trace are exactly those of the full pipeline run on that
claim; conversely a 400 rejection only ever happens when the claim field
defaults to the empty string. -/
theorem whitespace_claim_not_rejected (env : ApiEnv) :
    (∀ c : String, c ≠ "" →
      verify_claim env ⟨some c⟩ =
        ((match (analyze_claim_with_live_data env c).1 with
          | Except.error e => Except.error e
          | Except.ok v => Except.ok (200, RespBody.verdictBody v)),
         (analyze_claim_with_live_data env c).2)) ∧
    (∀ data : ReqBody,
      (verify_claim env data).1 = Except.ok (400, RespBody.err ("No claim provided")) →
      data.claim.getD ("") = "") := by
  constructor
  · intro c hc
    unfold verify_claim
    simp only [Option.getD_some]
    rw [if_neg hc]
    cases hA : analyze_claim_with_live_data env c with
    | mk fst tr =>
      cases fst <;> simp only [hA]
  · intro data h
    by_cases hd : data.claim.getD ("") = ""
    · exact hd
    · exfalso
      unfold verify_claim at h
      rw [if_neg hd] at h
      cases hA : analyze_claim_with_live_data env (data.claim.getD ("")) with
      | mk fst tr =>
        rw [hA] at h
        cases fst with
        | error e => simp at h
        | ok v => simp at h

/-- Witness for C10: the single-space claim is not rejected; the pipeline
runs (generative model and knowledge graph invoked) and the endpoint
returns its ERROR verdict with HTTP 200. -/
theorem whitespace_claim_not_rejected_inst :
    verify_claim envNone ⟨some (" ")⟩ =
      (Except.ok (200, RespBody.verdictBody
        ⟨("ERROR"), ("Could not verify the claim through any available API."), [], ("0%")⟩),
       [Stage.gemini, Stage.kg]) :=
  (whitespace_claim_not_rejected envNone).1 (" ") (by decide)

end FactChecker
